import Mathlib

set_option maxHeartbeats 1000000

/-!
Verification development for two modules of the PerfKitBenchmarker
repository:

* `perfkitbenchmarker/placement_group.py` — the placement-group Spec and
  Resource classes and their registry lookup helpers;
* `perfkitbenchmarker/providers/gcp/gce_windows_virtual_machine.py` — the
  Windows GCE virtual-machine subclass (GVNIC support, RSS disabling,
  default image families).

Python dicts used as config mappings are embedded as functions
`String → Option value`; Python string containment (`in`) is embedded as a
substring test on character lists; remote-command interaction in
`DisableRSS` is embedded by passing in the observed command outputs and
returning the list of commands issued alongside the result.
-/

/-- Substring test on character lists, the embedding of Python's `in`
operator on strings: `pat` occurs as a contiguous run inside `s`. -/
def listIsInfixOf (pat : List Char) : List Char → Bool
  | [] => pat.isEmpty
  | c :: rest => pat.isPrefixOf (c :: rest) || listIsInfixOf pat rest

/-- `strContains s pat` embeds Python's `pat in s` for strings. -/
def strContains (s pat : String) : Bool :=
  listIsInfixOf pat.data s.data

/-- A Python dict mapping config option names to provided string values
(`config_values` in `_ApplyFlags`). -/
def Config : Type := String → Option String

/-- Python dict item assignment `cfg[k] = v`. -/
def Config.insert (cfg : Config) (k v : String) : Config :=
  fun key => if key = k then some v else cfg key

/-- The value of the `placement_group_style` string flag
(`flags.DEFINE_string('placement_group_style', None, ...)`): `none` embeds
the default `None`, `some s` a value the flag was set to. -/
def PlacementGroupStyleFlag : Type := Option String

/-- Python truthiness of an absl string-flag value: `None` and the empty
string are falsy, every other string is truthy. -/
def flagTruthy : Option String → Bool
  | none => false
  | some s => s != ""

/-- Modelled from the spec: `spec.BaseSpec._ApplyFlags` is not among the
source files. Per the spec, flag overriding is contributed by subclasses
("subclasses may overwrite entries in config_values"), so the root base
class applies no override of its own and leaves the config mapping
unchanged. -/
def BaseSpec.applyFlags (config_values : Config)
    (_flag_values : Option String) : Config :=
  config_values

/-- `BasePlacementGroupSpec._ApplyFlags` with the inherited
`super()._ApplyFlags` call kept abstract as `superApply`: first the parent
implementation runs on the config mapping, then, when the
`placement_group_style` flag value is truthy, the
`placement_group_style` entry is overwritten with the flag value. -/
def BasePlacementGroupSpec.applyFlagsWith
    (superApply : Config → Option String → Config)
    (config_values : Config) (flag_values : Option String) : Config :=
  let config_values := superApply config_values flag_values
  match flag_values with
  | some s =>
      if s != "" then config_values.insert "placement_group_style" s
      else config_values
  | none => config_values

/-- `BasePlacementGroupSpec._ApplyFlags` with its actual parent,
`spec.BaseSpec._ApplyFlags`. -/
def BasePlacementGroupSpec.applyFlags : Config → Option String → Config :=
  BasePlacementGroupSpec.applyFlagsWith BaseSpec.applyFlags

/-- The spec's description of the subclass's own override in isolation:
overwrite the `placement_group_style` entry with the flag value when the
flag carries a truthy value, touch nothing otherwise. -/
def placementGroupStyleOverride (config_values : Config)
    (flag_values : Option String) : Config :=
  match flag_values with
  | some s =>
      if s != "" then config_values.insert "placement_group_style" s
      else config_values
  | none => config_values

/-- The decoder classes appearing in the placement-group module. -/
inductive DecoderClass
  | StringDecoder
deriving DecidableEq

/-- A decoder construction: a `ConfigOptionDecoder` class together with
the keyword arguments its constructor is to receive (only boolean keyword
arguments, here `none_ok`, occur). -/
structure DecoderConstruction where
  decoderClass : DecoderClass
  kwargs : List (String × Bool)
deriving DecidableEq

/-- The `none_ok` keyword argument of a decoder construction; per the
spec's decoder contract absence defaults to requiring the option. -/
def DecoderConstruction.noneOk (d : DecoderConstruction) : Bool :=
  match d.kwargs.lookup "none_ok" with
  | some b => b
  | none => false

/-- A Python dict mapping option names to decoder constructions, the
return type of `_GetOptionDecoderConstructions`. -/
def OptionMap : Type := String → Option DecoderConstruction

/-- Python `dict` single-key update `result.update({k: v})`. -/
def OptionMap.update (m : OptionMap) (k : String)
    (v : DecoderConstruction) : OptionMap :=
  fun key => if key = k then some v else m key

/-- The decoder construction `(option_decoders.StringDecoder,
{'none_ok': True})` that `BasePlacementGroupSpec` declares for `zone`. -/
def zoneDecoderConstruction : DecoderConstruction :=
  { decoderClass := DecoderClass.StringDecoder
    kwargs := [("none_ok", true)] }

/-- `BasePlacementGroupSpec._GetOptionDecoderConstructions` with the
inherited `super()._GetOptionDecoderConstructions()` result kept abstract
as `superResult`: the parent's mapping is updated with the `zone` entry
and returned. -/
def BasePlacementGroupSpec.getOptionDecoderConstructionsWith
    (superResult : OptionMap) : OptionMap :=
  superResult.update "zone" zoneDecoderConstruction

/-- `BasePlacementGroupSpec`'s decoded attributes: the `zone` option,
whose decoder allows the none sentinel (`none_ok=True`). -/
structure BasePlacementGroupSpec where
  zone : Option String
deriving DecidableEq

/-- Modelled from the spec: `option_decoders.StringDecoder.Decode` is not
among the source files. Per the spec's decoder contract, an absent raw
value decodes to the none sentinel exactly when the decoder was
constructed with `none_ok=True` and otherwise fails with a
required-option error; a present string passes through. -/
def stringDecoderDecode (none_ok : Bool) (raw_value : Option String) :
    Except String (Option String) :=
  match raw_value with
  | none =>
      if none_ok then Except.ok none
      else Except.error "required option not provided"
  | some s => Except.ok (some s)

/-- Modelled from the spec: Spec construction (`Spec.FromConfig` steps 4
and 5) is not among the source files. For `BasePlacementGroupSpec` the
declared options are the parent's plus `zone`; the `zone` field of the
new Spec is bound to the result of decoding the config's `zone` entry
with the decoder construction the class declared for `zone`. -/
def constructBasePlacementGroupSpec (superResult : OptionMap)
    (config : Config) : Except String BasePlacementGroupSpec :=
  match BasePlacementGroupSpec.getOptionDecoderConstructionsWith
      superResult "zone" with
  | none => Except.error "zone option not declared"
  | some d =>
      match stringDecoderDecode d.noneOk (config "zone") with
      | Except.ok z => Except.ok { zone := z }
      | Except.error e => Except.error e

/-- Modelled from the spec: `resource.BaseResource`'s internal lifecycle
state (pending → created → deleted, or failed), which is not among the
source files. -/
inductive LifecycleState
  | uninitialized
  | active
  | deleted
  | failed
deriving DecidableEq

/-- `BasePlacementGroup`'s attributes: the base resource's lifecycle
state plus the `zone` copied out of the spec at construction time. -/
structure BasePlacementGroup where
  state : LifecycleState
  zone : Option String
deriving DecidableEq

/-- `BasePlacementGroup.__init__`: run the base-resource constructor
(modelled from the spec: a fresh resource starts uninitialized), then
copy `placement_group_spec.zone` into the resource's own `zone`
attribute. No other part of the spec is retained. -/
def BasePlacementGroup.init
    (placement_group_spec : BasePlacementGroupSpec) : BasePlacementGroup :=
  { state := LifecycleState.uninitialized
    zone := placement_group_spec.zone }

/-- Modelled from the spec: `Create()` drives the resource to the active
state on success and to the failed state on failure; it is declared by
`resource.BaseResource`, which is not among the source files. -/
def BasePlacementGroup.create (r : BasePlacementGroup)
    (succeeds : Bool) : BasePlacementGroup :=
  { r with
      state := if succeeds then LifecycleState.active
               else LifecycleState.failed }

/-- Modelled from the spec: `Delete()` drives the resource to the deleted
state on success and to the failed state on failure. -/
def BasePlacementGroup.delete (r : BasePlacementGroup)
    (succeeds : Bool) : BasePlacementGroup :=
  { r with
      state := if succeeds then LifecycleState.deleted
               else LifecycleState.failed }

/-- Modelled from the spec: the existence check `_Exists()` queries the
provider and returns an answer without mutating the resource. -/
def BasePlacementGroup.existsCheck (r : BasePlacementGroup) :
    Bool × BasePlacementGroup :=
  (r.state == LifecycleState.active, r)

/-- Modelled from the spec: a concrete subclass as the registry sees it —
its name together with the cloud identifier its class-level `CLOUD`
constant declares. -/
structure RegisteredClass where
  className : String
  CLOUD : String
deriving DecidableEq

/-- Modelled from the spec: the NotImplementedError-class resolution
error carries the base class and the cloud identifier. -/
structure RegistryResolutionError where
  baseClass : String
  cloud : String
deriving DecidableEq

/-- Modelled from the spec: registry resolution
(`spec.GetSpecClass` / `resource.GetResourceClass`, not among the source
files) indexes the concrete subclasses of a base class by their declared
`CLOUD` constant and fails with a resolution error when no subclass
declared the requested cloud. -/
def registryResolve (baseClass : String)
    (registered : List RegisteredClass) (cloud : String) :
    Except RegistryResolutionError RegisteredClass :=
  match registered.find? (fun c => c.CLOUD == cloud) with
  | some c => Except.ok c
  | none => Except.error { baseClass := baseClass, cloud := cloud }

/-- `GetPlacementGroupSpecClass(cloud)`: resolve the concrete
`BasePlacementGroupSpec` subclass for `cloud` among the registered
subclasses. -/
def GetPlacementGroupSpecClass (registered : List RegisteredClass)
    (cloud : String) : Except RegistryResolutionError RegisteredClass :=
  registryResolve "BasePlacementGroupSpec" registered cloud

/-- `GetPlacementGroupClass(cloud)`: resolve the concrete
`BasePlacementGroup` subclass for `cloud` among the registered
subclasses. -/
def GetPlacementGroupClass (registered : List RegisteredClass)
    (cloud : String) : Except RegistryResolutionError RegisteredClass :=
  registryResolve "BasePlacementGroup" registered cloud

/-- The Windows OS-type constants from `os_types` that the GCE Windows
virtual-machine module refers to, as distinct tags. -/
inductive OsType
  | WINDOWS2012_CORE
  | WINDOWS2016_CORE
  | WINDOWS2019_CORE
  | WINDOWS2022_CORE
  | WINDOWS2012_DESKTOP
  | WINDOWS2016_DESKTOP
  | WINDOWS2019_DESKTOP
  | WINDOWS2022_DESKTOP
  | WINDOWS2019_SQLSERVER_2017_STANDARD
  | WINDOWS2019_SQLSERVER_2017_ENTERPRISE
  | WINDOWS2019_SQLSERVER_2019_STANDARD
  | WINDOWS2019_SQLSERVER_2019_ENTERPRISE
  | WINDOWS2022_SQLSERVER_2019_STANDARD
  | WINDOWS2022_SQLSERVER_2019_ENTERPRISE
deriving DecidableEq

/-- Modelled from the spec: `os_types.WINDOWS_CORE_OS_TYPES` is not among
the source files; it groups the four Windows Server core OS types the
module's image-family table names. -/
def WINDOWS_CORE_OS_TYPES : List OsType :=
  [OsType.WINDOWS2012_CORE, OsType.WINDOWS2016_CORE,
   OsType.WINDOWS2019_CORE, OsType.WINDOWS2022_CORE]

/-- Modelled from the spec: `os_types.WINDOWS_DESKOP_OS_TYPES` is not
among the source files; it groups the four Windows Server desktop OS
types the module's image-family table names. -/
def WINDOWS_DESKOP_OS_TYPES : List OsType :=
  [OsType.WINDOWS2012_DESKTOP, OsType.WINDOWS2016_DESKTOP,
   OsType.WINDOWS2019_DESKTOP, OsType.WINDOWS2022_DESKTOP]

/-- Modelled from the spec: `os_types.WINDOWS_SQLSERVER_OS_TYPES` is not
among the source files; it groups the six Windows SQL Server OS types the
module's SQL-Server image-family table names. -/
def WINDOWS_SQLSERVER_OS_TYPES : List OsType :=
  [OsType.WINDOWS2019_SQLSERVER_2017_STANDARD,
   OsType.WINDOWS2019_SQLSERVER_2017_ENTERPRISE,
   OsType.WINDOWS2019_SQLSERVER_2019_STANDARD,
   OsType.WINDOWS2019_SQLSERVER_2019_ENTERPRISE,
   OsType.WINDOWS2022_SQLSERVER_2019_STANDARD,
   OsType.WINDOWS2022_SQLSERVER_2019_ENTERPRISE]

/-- `WindowsGceVirtualMachine.DEFAULT_IMAGE_FAMILY`. -/
def WindowsGceVirtualMachine.DEFAULT_IMAGE_FAMILY :
    List (OsType × String) :=
  [(OsType.WINDOWS2012_CORE, "windows-2012-r2-core"),
   (OsType.WINDOWS2016_CORE, "windows-2016-core"),
   (OsType.WINDOWS2019_CORE, "windows-2019-core"),
   (OsType.WINDOWS2022_CORE, "windows-2022-core"),
   (OsType.WINDOWS2012_DESKTOP, "windows-2012-r2"),
   (OsType.WINDOWS2016_DESKTOP, "windows-2016"),
   (OsType.WINDOWS2019_DESKTOP, "windows-2019"),
   (OsType.WINDOWS2022_DESKTOP, "windows-2022")]

/-- `WindowsGceVirtualMachine.GVNIC_DISABLED_OS_TYPES`. -/
def WindowsGceVirtualMachine.GVNIC_DISABLED_OS_TYPES : List OsType :=
  [OsType.WINDOWS2012_CORE, OsType.WINDOWS2012_DESKTOP]

/-- `WindowsGceVirtualMachine.OS_TYPE`, the OS types the class registers
for: `os_types.WINDOWS_CORE_OS_TYPES + os_types.WINDOWS_DESKOP_OS_TYPES`. -/
def WindowsGceVirtualMachine.OS_TYPE : List OsType :=
  WINDOWS_CORE_OS_TYPES ++ WINDOWS_DESKOP_OS_TYPES

/-- `WindowsGceVirtualMachine.SupportGVNIC`: an instance whose resolved
OS type is `os_type` returns `self.OS_TYPE not in
self.GVNIC_DISABLED_OS_TYPES`. -/
def WindowsGceVirtualMachine.SupportGVNIC (os_type : OsType) : Bool :=
  !(WindowsGceVirtualMachine.GVNIC_DISABLED_OS_TYPES.contains os_type)

/-- `WindowsGceVirtualMachine.GetDefaultImageFamily`:
`self.DEFAULT_IMAGE_FAMILY[self.OS_TYPE]`; the dict's KeyError on a
missing key is embedded as `none`. -/
def WindowsGceVirtualMachine.GetDefaultImageFamily (os_type : OsType) :
    Option String :=
  WindowsGceVirtualMachine.DEFAULT_IMAGE_FAMILY.lookup os_type

/-- `WindowsGceSqlServerVirtualMachine.DEFAULT_IMAGE_FAMILY`. -/
def WindowsGceSqlServerVirtualMachine.DEFAULT_IMAGE_FAMILY :
    List (OsType × String) :=
  [(OsType.WINDOWS2019_SQLSERVER_2017_STANDARD, "sql-std-2017-win-2019"),
   (OsType.WINDOWS2019_SQLSERVER_2017_ENTERPRISE, "sql-ent-2017-win-2019"),
   (OsType.WINDOWS2019_SQLSERVER_2019_STANDARD, "sql-std-2019-win-2019"),
   (OsType.WINDOWS2019_SQLSERVER_2019_ENTERPRISE, "sql-ent-2019-win-2019"),
   (OsType.WINDOWS2022_SQLSERVER_2019_STANDARD, "sql-std-2019-win-2022"),
   (OsType.WINDOWS2022_SQLSERVER_2019_ENTERPRISE, "sql-ent-2019-win-2022")]

/-- `WindowsGceSqlServerVirtualMachine.OS_TYPE`:
`os_types.WINDOWS_SQLSERVER_OS_TYPES`. -/
def WindowsGceSqlServerVirtualMachine.OS_TYPE : List OsType :=
  WINDOWS_SQLSERVER_OS_TYPES

/-- `GetDefaultImageFamily` as inherited by
`WindowsGceSqlServerVirtualMachine`, which overrides only the
`DEFAULT_IMAGE_FAMILY` table. -/
def WindowsGceSqlServerVirtualMachine.GetDefaultImageFamily
    (os_type : OsType) : Option String :=
  WindowsGceSqlServerVirtualMachine.DEFAULT_IMAGE_FAMILY.lookup os_type

/-- The two exception classes `DisableRSS` can raise. -/
inductive DisableRssError
  | GceDriverDoesntSupportFeatureError (msg : String)
  | GceUnexpectedWindowsAdapterOutputError (msg : String)
deriving DecidableEq

/-- The outputs the remote Windows host returns to the two query
commands `DisableRSS` issues. -/
structure RemoteOutputs where
  netAdapters : String
  showGlobal : String

/-- `WindowsGceVirtualMachine.DisableRSS`, embedded over the observed
remote outputs: the result is the raised exception or unit, paired with
the list of remote commands issued, in order. The `IOError` that
`Restart-NetAdapter` always raises over the broken winrm connection is
caught by the source and so does not appear in the result. -/
def WindowsGceVirtualMachine.DisableRSS (env : RemoteOutputs) :
    Except DisableRssError Unit × List String :=
  let cmds := ["Get-NetAdapter"]
  if !(strContains env.netAdapters "Red Hat VirtIO Ethernet Adapter") then
    (Except.error (DisableRssError.GceDriverDoesntSupportFeatureError
        "Driver not tested with RSS disabled in PKB."), cmds)
  else
    let cmds := cmds ++ ["netsh int tcp set global rss=disabled",
                         "Restart-NetAdapter -Name \"Ethernet\"",
                         "netsh int tcp show global"]
    if strContains env.showGlobal
        "Receive-Side Scaling State          : enabled" then
      (Except.error (DisableRssError.GceUnexpectedWindowsAdapterOutputError
          "RSS failed to disable."), cmds)
    else
      (Except.ok (), cmds)

/-- The remote commands of `DisableRSS` that change state on the host, as
opposed to the two pure queries. -/
def isStateChangingCommand (c : String) : Bool :=
  c == "netsh int tcp set global rss=disabled" ||
  c == "Restart-NetAdapter -Name \"Ethernet\""

/-! Theorems -/

/-- A concrete config mapping carrying a config-file value for the
`placement_group_style` option. -/
def cfgPG : Config :=
  fun k => if k = "placement_group_style" then some "cluster" else none

/-- An empty config mapping. -/
def emptyConfig : Config := fun _ => none

/-- An example parent decoder mapping with no entries of its own. -/
def baseOptionMapExample : OptionMap := fun _ => none

/-- C1 counterexample: with config value "cluster" for
placement_group_style and the flag explicitly set to the value "" (the
empty string), the entry `_ApplyFlags` leaves behind is the config value
"cluster", not the flag value "" — the truthiness test on the flag value
skips the override, refuting the claim that an explicitly set flag always
wins. -/
theorem C1_counterexample :
    cfgPG "placement_group_style" = some "cluster" ∧
    BasePlacementGroupSpec.applyFlags cfgPG (some "")
      "placement_group_style" ≠ some "" ∧
    BasePlacementGroupSpec.applyFlags cfgPG (some "")
      "placement_group_style" = some "cluster" :=
  ⟨rfl, by decide, by decide⟩

/-- C1 (amended): when the `placement_group_style` flag carries a
truthy (non-empty) value F, the entry `BasePlacementGroupSpec._ApplyFlags`
produces for placement_group_style equals F and not the config value V;
when the flag is unset (None) or set to the empty string, the entry keeps
the config value V. -/
theorem C1_flag_override_precedence (cfg : Config) (V F : String)
    (hV : cfg "placement_group_style" = some V) (hF : F ≠ "") :
    BasePlacementGroupSpec.applyFlags cfg (some F)
      "placement_group_style" = some F ∧
    BasePlacementGroupSpec.applyFlags cfg (some "")
      "placement_group_style" = some V ∧
    BasePlacementGroupSpec.applyFlags cfg none
      "placement_group_style" = some V := by
  refine ⟨?_, ?_, ?_⟩ <;>
    simp [BasePlacementGroupSpec.applyFlags,
      BasePlacementGroupSpec.applyFlagsWith, BaseSpec.applyFlags,
      Config.insert, hV, hF]

/-- C1 witness: the amended precedence rule at the concrete config
`cfgPG` (config value "cluster") and flag value "spread". -/
theorem C1_flag_override_precedence_witness :
    cfgPG "placement_group_style" = some "cluster" ∧
    ("spread" : String) ≠ "" ∧
    (BasePlacementGroupSpec.applyFlags cfgPG (some "spread")
        "placement_group_style" = some "spread" ∧
      BasePlacementGroupSpec.applyFlags cfgPG (some "")
        "placement_group_style" = some "cluster" ∧
      BasePlacementGroupSpec.applyFlags cfgPG none
        "placement_group_style" = some "cluster") :=
  ⟨rfl, by decide,
   C1_flag_override_precedence cfgPG "cluster" "spread" rfl (by decide)⟩

/-- C2: `BasePlacementGroupSpec._ApplyFlags` is the cooperative extension
of its parent's `_ApplyFlags`: for every parent behavior, config mapping
and flag value, it equals the subclass's own placement_group_style
override applied to the parent's result — the parent's modifications
always happen and the override is layered on top of them. -/
theorem C2_applyFlags_cooperative
    (superApply : Config → Option String → Config)
    (config_values : Config) (flag_values : Option String) :
    BasePlacementGroupSpec.applyFlagsWith superApply config_values
        flag_values =
      placementGroupStyleOverride (superApply config_values flag_values)
        flag_values := by
  cases flag_values <;> rfl

/-- C4: `_GetOptionDecoderConstructions` maps `zone` to a StringDecoder
construction with `none_ok=True` (replacing any parent entry under that
name), and maps every other option name exactly as the parent's mapping
does. -/
theorem C4_getOptionDecoderConstructions (superResult : OptionMap) :
    BasePlacementGroupSpec.getOptionDecoderConstructionsWith superResult
        "zone" =
      some { decoderClass := DecoderClass.StringDecoder
             kwargs := [("none_ok", true)] } ∧
    ∀ k : String, k ≠ "zone" →
      BasePlacementGroupSpec.getOptionDecoderConstructionsWith superResult
          k = superResult k := by
  refine ⟨rfl, ?_⟩
  intro k hk
  simp [BasePlacementGroupSpec.getOptionDecoderConstructionsWith,
    OptionMap.update, hk]

/-- C4 witness: the decoder mapping at a concrete parent mapping, probed
at `zone` and at the non-colliding name `cloud`. -/
theorem C4_getOptionDecoderConstructions_witness :
    BasePlacementGroupSpec.getOptionDecoderConstructionsWith
        baseOptionMapExample "zone" =
      some { decoderClass := DecoderClass.StringDecoder
             kwargs := [("none_ok", true)] } ∧
    BasePlacementGroupSpec.getOptionDecoderConstructionsWith
        baseOptionMapExample "cloud" = baseOptionMapExample "cloud" :=
  ⟨(C4_getOptionDecoderConstructions baseOptionMapExample).1,
   (C4_getOptionDecoderConstructions baseOptionMapExample).2 "cloud"
     (by decide)⟩

/-- C5: `BasePlacementGroup.__init__` copies the spec's `zone` into the
resource's own attribute, and the constructed resource depends on
nothing else of the spec: two specs agreeing on `zone` construct equal
resources, so later changes to or disposal of the spec object cannot
affect the resource. -/
theorem C5_init_copies_zone (s t : BasePlacementGroupSpec)
    (h : s.zone = t.zone) :
    (BasePlacementGroup.init s).zone = s.zone ∧
    BasePlacementGroup.init s = BasePlacementGroup.init t := by
  exact ⟨rfl, by simp [BasePlacementGroup.init, h]⟩

/-- C5 witness: construction from a concrete spec with zone
"us-central1-a". -/
theorem C5_init_copies_zone_witness :
    (BasePlacementGroup.init { zone := some "us-central1-a" }).zone =
      BasePlacementGroupSpec.zone { zone := some "us-central1-a" } ∧
    BasePlacementGroup.init { zone := some "us-central1-a" } =
      BasePlacementGroup.init { zone := some "us-central1-a" } :=
  C5_init_copies_zone { zone := some "us-central1-a" }
    { zone := some "us-central1-a" } rfl

/-- C6: `zone` is read-only after construction — Create, Delete and the
existence check all leave the resource's `zone` attribute unchanged,
whether they succeed or fail. -/
theorem C6_zone_read_only (r : BasePlacementGroup) (succeeds : Bool) :
    (r.create succeeds).zone = r.zone ∧
    (r.delete succeeds).zone = r.zone ∧
    (r.existsCheck).2.zone = r.zone :=
  ⟨rfl, rfl, rfl⟩

/-- C7: when the config omits `zone`, Spec construction succeeds — the
`zone` decoder the class declares carries `none_ok=True`, so the absent
value decodes to the none sentinel and the resulting Spec's `zone` is
none. -/
theorem C7_zone_omitted_ok (superResult : OptionMap) (config : Config)
    (h : config "zone" = none) :
    constructBasePlacementGroupSpec superResult config =
      Except.ok { zone := none } := by
  simp [constructBasePlacementGroupSpec,
    BasePlacementGroupSpec.getOptionDecoderConstructionsWith,
    OptionMap.update, h, stringDecoderDecode, DecoderConstruction.noneOk,
    zoneDecoderConstruction]

/-- C7 witness: construction from the empty config succeeds with zone
none. -/
theorem C7_zone_omitted_ok_witness :
    constructBasePlacementGroupSpec baseOptionMapExample emptyConfig =
      Except.ok { zone := none } :=
  C7_zone_omitted_ok baseOptionMapExample emptyConfig rfl

/-- Helper: when no registered class declares `cloud`, the registry scan
finds nothing. -/
theorem findRegisteredClass_eq_none {registered : List RegisteredClass}
    {cloud : String} (h : ∀ c ∈ registered, c.CLOUD ≠ cloud) :
    registered.find? (fun c => c.CLOUD == cloud) = none := by
  apply List.find?_eq_none.mpr
  intro c hc
  simpa using h c hc

/-- Helper: when `c` is the unique registered class declaring `cloud`,
the registry scan finds exactly `c`. -/
theorem findRegisteredClass_eq_some {registered : List RegisteredClass}
    {cloud : String} {c : RegisteredClass} (hc : c ∈ registered)
    (hcl : c.CLOUD = cloud)
    (huniq : ∀ c' ∈ registered, c'.CLOUD = cloud → c' = c) :
    registered.find? (fun x => x.CLOUD == cloud) = some c := by
  induction registered with
  | nil => cases hc
  | cons a t ih =>
    by_cases ha : a.CLOUD = cloud
    · have hac : a = c := huniq a (List.mem_cons_self a t) ha
      subst hac
      simp [List.find?, ha]
    · have hct : c ∈ t := by
        rcases List.mem_cons.mp hc with h | h
        · exact absurd (h ▸ hcl) ha
        · exact h
      have hpa : (a.CLOUD == cloud) = false := by simpa using ha
      simp only [List.find?, hpa]
      exact ih hct fun c' hc' hcl' =>
        huniq c' (List.mem_cons_of_mem a hc') hcl'

/-- C3: for a cloud identifier no registered concrete subclass declares,
both `GetPlacementGroupClass` and `GetPlacementGroupSpecClass` fail with
the NotImplementedError-class resolution error naming the base class and
the cloud; for a cloud identifier declared by exactly one registered
subclass, both return exactly that subclass. -/
theorem C3_registry_lookup (registered : List RegisteredClass)
    (cloud : String) :
    ((∀ c ∈ registered, c.CLOUD ≠ cloud) →
      GetPlacementGroupClass registered cloud =
        Except.error { baseClass := "BasePlacementGroup"
                       cloud := cloud } ∧
      GetPlacementGroupSpecClass registered cloud =
        Except.error { baseClass := "BasePlacementGroupSpec"
                       cloud := cloud }) ∧
    (∀ c ∈ registered, c.CLOUD = cloud →
      (∀ c' ∈ registered, c'.CLOUD = cloud → c' = c) →
      GetPlacementGroupClass registered cloud = Except.ok c ∧
      GetPlacementGroupSpecClass registered cloud = Except.ok c) := by
  constructor
  · intro h
    constructor <;>
      simp [GetPlacementGroupClass, GetPlacementGroupSpecClass,
        registryResolve, findRegisteredClass_eq_none h]
  · intro c hc hcl huniq
    constructor <;>
      simp [GetPlacementGroupClass, GetPlacementGroupSpecClass,
        registryResolve, findRegisteredClass_eq_some hc hcl huniq]

/-- The GCP placement-group class as registered in the registry. -/
def gcpPlacementGroupClass : RegisteredClass :=
  { className := "GcePlacementGroup", CLOUD := "GCP" }

/-- C3 witness: resolution against a registry holding only the GCP
class — the cloud "NONEXISTENT-CLOUD" fails with the resolution error
and the cloud "GCP" returns the GCP class. -/
theorem C3_registry_lookup_witness :
    (GetPlacementGroupClass [gcpPlacementGroupClass] "NONEXISTENT-CLOUD" =
      Except.error { baseClass := "BasePlacementGroup"
                     cloud := "NONEXISTENT-CLOUD" } ∧
     GetPlacementGroupSpecClass [gcpPlacementGroupClass]
        "NONEXISTENT-CLOUD" =
      Except.error { baseClass := "BasePlacementGroupSpec"
                     cloud := "NONEXISTENT-CLOUD" }) ∧
    (GetPlacementGroupClass [gcpPlacementGroupClass] "GCP" =
      Except.ok gcpPlacementGroupClass ∧
     GetPlacementGroupSpecClass [gcpPlacementGroupClass] "GCP" =
      Except.ok gcpPlacementGroupClass) :=
  ⟨(C3_registry_lookup [gcpPlacementGroupClass] "NONEXISTENT-CLOUD").1
     (by decide),
   (C3_registry_lookup [gcpPlacementGroupClass] "GCP").2
     gcpPlacementGroupClass (by decide) rfl (by decide)⟩

/-- C8: `SupportGVNIC` returns false exactly for the OS types
WINDOWS2012_CORE and WINDOWS2012_DESKTOP (the members of
`GVNIC_DISABLED_OS_TYPES`) and true for every other OS type. -/
theorem C8_SupportGVNIC (os_type : OsType) :
    (WindowsGceVirtualMachine.SupportGVNIC os_type = false ↔
      (os_type = OsType.WINDOWS2012_CORE ∨
        os_type = OsType.WINDOWS2012_DESKTOP)) ∧
    (WindowsGceVirtualMachine.SupportGVNIC os_type = true ↔
      (os_type ≠ OsType.WINDOWS2012_CORE ∧
        os_type ≠ OsType.WINDOWS2012_DESKTOP)) := by
  cases os_type <;> exact ⟨by decide, by decide⟩

/-- C10: every OS type in `WindowsGceVirtualMachine.OS_TYPE` (the core
plus desktop Windows types) is a key of that class's
`DEFAULT_IMAGE_FAMILY`, and every OS type in
`WindowsGceSqlServerVirtualMachine.OS_TYPE` (the SQL Server types) is a
key of that class's `DEFAULT_IMAGE_FAMILY`, so `GetDefaultImageFamily`
returns a string for every supported OS type and its missing-key branch
is unreachable there. -/
theorem C10_image_family_total (os_type : OsType) :
    (os_type ∈ WindowsGceVirtualMachine.OS_TYPE →
      (WindowsGceVirtualMachine.GetDefaultImageFamily os_type).isSome =
        true) ∧
    (os_type ∈ WindowsGceSqlServerVirtualMachine.OS_TYPE →
      (WindowsGceSqlServerVirtualMachine.GetDefaultImageFamily
          os_type).isSome = true) := by
  cases os_type <;> exact ⟨by decide, by decide⟩

/-- C10 witness: a supported core OS type and a supported SQL Server OS
type each resolve to an image family. -/
theorem C10_image_family_total_witness :
    (OsType.WINDOWS2019_CORE ∈ WindowsGceVirtualMachine.OS_TYPE ∧
      (WindowsGceVirtualMachine.GetDefaultImageFamily
          OsType.WINDOWS2019_CORE).isSome = true) ∧
    (OsType.WINDOWS2022_SQLSERVER_2019_STANDARD ∈
        WindowsGceSqlServerVirtualMachine.OS_TYPE ∧
      (WindowsGceSqlServerVirtualMachine.GetDefaultImageFamily
          OsType.WINDOWS2022_SQLSERVER_2019_STANDARD).isSome = true) :=
  ⟨⟨by decide,
    (C10_image_family_total OsType.WINDOWS2019_CORE).1 (by decide)⟩,
   ⟨by decide,
    (C10_image_family_total
        OsType.WINDOWS2022_SQLSERVER_2019_STANDARD).2 (by decide)⟩⟩

/-- C9: when the Get-NetAdapter output lacks the substring "Red Hat
VirtIO Ethernet Adapter", `DisableRSS` raises
GceDriverDoesntSupportFeatureError and issues no state-changing remote
command; when the driver is present, it raises
GceUnexpectedWindowsAdapterOutputError exactly when the
`netsh int tcp show global` output still contains the enabled
Receive-Side Scaling State line, and returns normally otherwise. -/
theorem C9_DisableRSS (env : RemoteOutputs) :
    (strContains env.netAdapters "Red Hat VirtIO Ethernet Adapter" =
        false →
      (WindowsGceVirtualMachine.DisableRSS env).1 =
        Except.error (DisableRssError.GceDriverDoesntSupportFeatureError
          "Driver not tested with RSS disabled in PKB.") ∧
      (WindowsGceVirtualMachine.DisableRSS env).2.filter
        isStateChangingCommand = []) ∧
    (strContains env.netAdapters "Red Hat VirtIO Ethernet Adapter" =
        true →
      ((WindowsGceVirtualMachine.DisableRSS env).1 =
          Except.error
            (DisableRssError.GceUnexpectedWindowsAdapterOutputError
              "RSS failed to disable.") ↔
        strContains env.showGlobal
          "Receive-Side Scaling State          : enabled" = true) ∧
      (strContains env.showGlobal
          "Receive-Side Scaling State          : enabled" = false →
        (WindowsGceVirtualMachine.DisableRSS env).1 = Except.ok ())) := by
  cases h1 : strContains env.netAdapters
      "Red Hat VirtIO Ethernet Adapter" <;>
    cases h2 : strContains env.showGlobal
        "Receive-Side Scaling State          : enabled" <;>
    simp [WindowsGceVirtualMachine.DisableRSS, h1, h2,
      isStateChangingCommand]

/-- Remote outputs of a host without the VirtIO driver. -/
def rssEnvNoDriver : RemoteOutputs :=
  { netAdapters := "Intel(R) Gigabit Network Connection"
    showGlobal := "" }

/-- Remote outputs of a VirtIO host on which disabling failed: the show
global output still reports the enabled state. -/
def rssEnvStillEnabled : RemoteOutputs :=
  { netAdapters := "Ethernet  Red Hat VirtIO Ethernet Adapter  Up"
    showGlobal := "Receive-Side Scaling State          : enabled" }

/-- Remote outputs of a VirtIO host on which disabling succeeded. -/
def rssEnvDisabled : RemoteOutputs :=
  { netAdapters := "Ethernet  Red Hat VirtIO Ethernet Adapter  Up"
    showGlobal := "Receive-Side Scaling State          : disabled" }

/-- C9 witness: the three branches of `DisableRSS` on concrete remote
outputs — missing driver, disable that did not take, and successful
disable. -/
theorem C9_DisableRSS_witness :
    ((WindowsGceVirtualMachine.DisableRSS rssEnvNoDriver).1 =
        Except.error (DisableRssError.GceDriverDoesntSupportFeatureError
          "Driver not tested with RSS disabled in PKB.") ∧
      (WindowsGceVirtualMachine.DisableRSS rssEnvNoDriver).2.filter
        isStateChangingCommand = []) ∧
    (WindowsGceVirtualMachine.DisableRSS rssEnvStillEnabled).1 =
      Except.error (DisableRssError.GceUnexpectedWindowsAdapterOutputError
        "RSS failed to disable.") ∧
    (WindowsGceVirtualMachine.DisableRSS rssEnvDisabled).1 =
      Except.ok () :=
  ⟨(C9_DisableRSS rssEnvNoDriver).1 (by decide),
   ((C9_DisableRSS rssEnvStillEnabled).2 (by decide)).1.mpr (by decide),
   ((C9_DisableRSS rssEnvDisabled).2 (by decide)).2 (by decide)⟩
